import Mathlib

/-!
Shallow embedding of the `lo` library's `errors.go` (the Must family, the
Try family and the failure wrapper `wrapErrPrefixMsg`).

Modelling conventions:
* Go's `error` interface is the inductive type `GoErr`: either a plain
  message error (`errors.New` / `fmt.Errorf` result) or the library's
  `wrapErrPrefixMsg` wrapper.
* Go's `any` (`interface\x7b\x7d`) values that flow through these functions are the
  inductive type `GoAny`.
* A computation that can panic is a value of `Except GoAny α`:
  `Except.error p` is a panic with payload `p` (the default abort hook
  `LoPanic` panics with exactly its argument), `Except.ok v` is normal
  completion with result `v`.  `recover()` in `Try` corresponds to matching
  on the `Except.error` constructor.
* `fmt.Sprintf` is modelled by `sprintf` for the verb fragment these
  functions use (`%d`, `%s`, `%v`, an optional `+` flag, `%%`, and the
  `MISSING` / `EXTRA` / `NOVERB` diagnostics).
-/

namespace Lo

/-- Go `error` values reachable in this file: a base error carrying a message
(`errors.errorString`), or the library's `wrapErrPrefixMsg` wrapper with a
`Base` error and an `Attach` prefix string. -/
inductive GoErr : Type
  | errorString (s : String)
  | wrapErrPrefixMsg (base : GoErr) (attach : String)
  deriving DecidableEq

/-- The `Error()` method.  For `errorString` it returns the message; for
`wrapErrPrefixMsg` it is the source's
`if err.Attach != "" { return err.Attach + ": " + err.Base.Error() }
 return err.Base.Error()`. -/
def GoErr.Error : GoErr → String
  | .errorString s => s
  | .wrapErrPrefixMsg base attach =>
      if attach ≠ "" then attach ++ ": " ++ GoErr.Error base else GoErr.Error base

/-- `errors.Unwrap`: only `wrapErrPrefixMsg` has an `Unwrap() error` method
(returning `err.Base`); a base error unwraps to nothing. -/
def GoErr.Unwrap : GoErr → Option GoErr
  | .errorString _ => none
  | .wrapErrPrefixMsg base _ => some base

/-- Go `any` values that reach `must` / `messageFromMsgAndArgs` / panics:
`nil`, booleans, ints, strings, errors, the runtime's type-assertion panic
value, and an opaque stand-in for any other dynamic type (carrying its
reflected type name). -/
inductive GoAny : Type
  | goNil
  | goBool (b : Bool)
  | goInt (n : Int)
  | goString (s : String)
  | goErr (e : GoErr)
  | goTypeAssertionError (typ : String)
  | other (typeName : String)
  deriving DecidableEq

/-- Whether the dynamic value is a `string` (the `ok` of the `.(string)`
type assertion). -/
def GoAny.isGoString : GoAny → Bool
  | .goString _ => true
  | _ => false

/-- Default rendering of a value, as `fmt`'s `%v` / `%+v` produce it for the
shapes in `GoAny` (errors render through their `Error()` method; the opaque
`other` stand-in renders as a braced type name). -/
def goDisplay : GoAny → String
  | .goNil => "<nil>"
  | .goBool b => if b then "true" else "false"
  | .goInt n => toString n
  | .goString s => s
  | .goErr e => e.Error
  | .goTypeAssertionError t =>
      "interface conversion: interface \x7b\x7d is " ++ t ++ ", not string"
  | .other t => "\x7b" ++ t ++ "\x7d"

/-- The full type string `reflect.TypeOf(x).String()`-style, used by `fmt`'s
mismatch diagnostics. -/
def goTypeString : GoAny → String
  | .goNil => "<nil>"
  | .goBool _ => "bool"
  | .goInt _ => "int"
  | .goString _ => "string"
  | .goErr (.errorString _) => "*errors.errorString"
  | .goErr (.wrapErrPrefixMsg _ _) => "lo.wrapErrPrefixMsg"
  | .goTypeAssertionError _ => "*runtime.TypeAssertionError"
  | .other t => t

/-- `reflect.TypeOf(x).Name()`, as used in `must`'s default branch.  Named
scalar types report their name; pointer and interface-shaped values report
the empty string (as `reflect` does for unnamed types). -/
def goReflectName : GoAny → String
  | .goNil => ""
  | .goBool _ => "bool"
  | .goInt _ => "int"
  | .goString _ => "string"
  | .goErr _ => ""
  | .goTypeAssertionError _ => ""
  | .other t => t

/-- Rendering of leftover operands for `fmt`'s `%!(EXTRA ...)` diagnostic. -/
def extraArgsDesc : List GoAny → String
  | [] => ""
  | [a] => goTypeString a ++ "=" ++ goDisplay a
  | a :: rest => goTypeString a ++ "=" ++ goDisplay a ++ ", " ++ extraArgsDesc rest

/-- One formatting verb applied to one operand, for the verbs used here
(`d`, `s`, `v`); a mismatched operand produces `fmt`'s
`%!verb(type=value)` diagnostic. -/
def fmtVerb (c : Char) (a : GoAny) : String :=
  if c = 'd' then
    match a with
    | .goInt n => toString n
    | x => "%!d(" ++ goTypeString x ++ "=" ++ goDisplay x ++ ")"
  else if c = 's' then
    match a with
    | .goString s => s
    | .goErr e => e.Error
    | x => "%!s(" ++ goTypeString x ++ "=" ++ goDisplay x ++ ")"
  else if c = 'v' then goDisplay a
  else "%!" ++ c.toString ++ "(" ++ goTypeString a ++ "=" ++ goDisplay a ++ ")"

/-- `fmt.Sprintf` over the format's characters: `%%` is a literal percent,
`%verb` (with optional `+` flag) consumes one operand, a missing operand
yields `%!verb(MISSING)`, leftover operands are appended as
`%!(EXTRA ...)`, a trailing bare `%` yields `%!(NOVERB)`. -/
def sprintfChars : List Char → List GoAny → String
  | [], [] => ""
  | [], a :: rest => "%!(EXTRA " ++ extraArgsDesc (a :: rest) ++ ")"
  | '%' :: '%' :: rest, args => "%" ++ sprintfChars rest args
  | '%' :: '+' :: c :: rest, [] => "%!" ++ c.toString ++ "(MISSING)" ++ sprintfChars rest []
  | '%' :: '+' :: c :: rest, a :: args => fmtVerb c a ++ sprintfChars rest args
  | '%' :: c :: rest, [] => "%!" ++ c.toString ++ "(MISSING)" ++ sprintfChars rest []
  | '%' :: c :: rest, a :: args => fmtVerb c a ++ sprintfChars rest args
  | ['%'], _ => "%!(NOVERB)"
  | c :: rest, args => c.toString ++ sprintfChars rest args

/-- `fmt.Sprintf(format, args...)` for the fragment used by this file. -/
def sprintf (format : String) (args : List GoAny) : String :=
  sprintfChars format.data args

/-- `messageFromMsgAndArgs(msgAndArgs ...interface\x7b\x7d) string`.
One argument: returned as-is when a string, otherwise rendered with
`fmt.Sprintf("%+v", ...)`.  More than one: `msgAndArgs[0].(string)` is a
hard type assertion — when element 0 is not a string the assertion panics
(modelled as `Except.error` carrying the runtime's type-assertion value) —
and the rest are `Sprintf` operands.  No arguments: the empty string. -/
def messageFromMsgAndArgs (msgAndArgs : List GoAny) : Except GoAny String :=
  match msgAndArgs with
  | [a] =>
    match a with
    | .goString s => Except.ok s
    | x => Except.ok (sprintf "%+v" [x])
  | a :: rest =>
    match a with
    | .goString s => Except.ok (sprintf s rest)
    | x => Except.error (GoAny.goTypeAssertionError (goTypeString x))
  | [] => Except.ok ""

/-- `must(err any, messageArgs ...interface\x7b\x7d)`: returns normally when `err`
is `nil` or `true`; panics (through the default abort hook `LoPanic`) with
the composed message when `err` is `false` (defaulting to `"not ok"`), with
`message + ": " + err.Error()` or `err.Error()` when `err` is an error, and
with a diagnostic naming the reflected type otherwise. -/
def must (err : GoAny) (messageArgs : List GoAny) : Except GoAny Unit :=
  match err with
  | .goNil => Except.ok ()
  | .goBool e =>
    if !e then
      match messageFromMsgAndArgs messageArgs with
      | Except.error p => Except.error p
      | Except.ok message =>
          Except.error (GoAny.goString (if message = "" then "not ok" else message))
    else Except.ok ()
  | .goErr e =>
    match messageFromMsgAndArgs messageArgs with
    | Except.error p => Except.error p
    | Except.ok message =>
      if message ≠ "" then
        Except.error (GoAny.goString (message ++ ": " ++ e.Error))
      else
        Except.error (GoAny.goString e.Error)
  | x =>
    Except.error (GoAny.goString ("must: invalid err type '" ++ goReflectName x
      ++ "', should either be a bool or an error"))

/-- `Must[T any](val T, err any, messageArgs ...)` — `must` then pass `val`
through unchanged. -/
def Must {T : Type} (val : T) (err : GoAny) (messageArgs : List GoAny) :
    Except GoAny T :=
  Except.map (fun _ => val) (must err messageArgs)

/-- `Must0`. -/
def Must0 (err : GoAny) (messageArgs : List GoAny) : Except GoAny Unit :=
  must err messageArgs

/-- `Must1` is an alias to `Must`. -/
def Must1 {T : Type} (val : T) (err : GoAny) (messageArgs : List GoAny) :
    Except GoAny T :=
  Must val err messageArgs

/-- `Must2`. -/
def Must2 {T1 T2 : Type} (val1 : T1) (val2 : T2) (err : GoAny)
    (messageArgs : List GoAny) : Except GoAny (T1 × T2) :=
  Except.map (fun _ => (val1, val2)) (must err messageArgs)

/-- `Must3`. -/
def Must3 {T1 T2 T3 : Type} (val1 : T1) (val2 : T2) (val3 : T3) (err : GoAny)
    (messageArgs : List GoAny) : Except GoAny (T1 × T2 × T3) :=
  Except.map (fun _ => (val1, val2, val3)) (must err messageArgs)

/-- `Must4`. -/
def Must4 {T1 T2 T3 T4 : Type} (val1 : T1) (val2 : T2) (val3 : T3) (val4 : T4)
    (err : GoAny) (messageArgs : List GoAny) : Except GoAny (T1 × T2 × T3 × T4) :=
  Except.map (fun _ => (val1, val2, val3, val4)) (must err messageArgs)

/-- `Must5`. -/
def Must5 {T1 T2 T3 T4 T5 : Type} (val1 : T1) (val2 : T2) (val3 : T3)
    (val4 : T4) (val5 : T5) (err : GoAny) (messageArgs : List GoAny) :
    Except GoAny (T1 × T2 × T3 × T4 × T5) :=
  Except.map (fun _ => (val1, val2, val3, val4, val5)) (must err messageArgs)

/-- `Must6`. -/
def Must6 {T1 T2 T3 T4 T5 T6 : Type} (val1 : T1) (val2 : T2) (val3 : T3)
    (val4 : T4) (val5 : T5) (val6 : T6) (err : GoAny) (messageArgs : List GoAny) :
    Except GoAny (T1 × T2 × T3 × T4 × T5 × T6) :=
  Except.map (fun _ => (val1, val2, val3, val4, val5, val6)) (must err messageArgs)

/-- `mustE(err error, messageArgs ...any)`: returns normally when `err` is
`nil`; otherwise composes the message and panics with the wrapper
`wrapErrPrefixMsg\x7bBase: err, Attach: message\x7d`. -/
def mustE (err : Option GoErr) (messageArgs : List GoAny) : Except GoAny Unit :=
  match err with
  | none => Except.ok ()
  | some e =>
    match messageFromMsgAndArgs messageArgs with
    | Except.error p => Except.error p
    | Except.ok message =>
        Except.error (GoAny.goErr (GoErr.wrapErrPrefixMsg e message))

/-- `MustE[T any](val T, err error, messageArgs ...)`. -/
def MustE {T : Type} (val : T) (err : Option GoErr) (messageArgs : List GoAny) :
    Except GoAny T :=
  Except.map (fun _ => val) (mustE err messageArgs)

/-- `MustE0`. -/
def MustE0 (err : Option GoErr) (messageArgs : List GoAny) : Except GoAny Unit :=
  mustE err messageArgs

/-- `MustE1` is an alias to `MustE`. -/
def MustE1 {T1 : Type} (val1 : T1) (err : Option GoErr) (messageArgs : List GoAny) :
    Except GoAny T1 :=
  Except.map (fun _ => val1) (mustE err messageArgs)

/-- `MustE2`. -/
def MustE2 {T1 T2 : Type} (val1 : T1) (val2 : T2) (err : Option GoErr)
    (messageArgs : List GoAny) : Except GoAny (T1 × T2) :=
  Except.map (fun _ => (val1, val2)) (mustE err messageArgs)

/-- `MustE3`. -/
def MustE3 {T1 T2 T3 : Type} (val1 : T1) (val2 : T2) (val3 : T3)
    (err : Option GoErr) (messageArgs : List GoAny) : Except GoAny (T1 × T2 × T3) :=
  Except.map (fun _ => (val1, val2, val3)) (mustE err messageArgs)

/-- `MustE4`. -/
def MustE4 {T1 T2 T3 T4 : Type} (val1 : T1) (val2 : T2) (val3 : T3) (val4 : T4)
    (err : Option GoErr) (messageArgs : List GoAny) :
    Except GoAny (T1 × T2 × T3 × T4) :=
  Except.map (fun _ => (val1, val2, val3, val4)) (mustE err messageArgs)

/-- `MustE5`. -/
def MustE5 {T1 T2 T3 T4 T5 : Type} (val1 : T1) (val2 : T2) (val3 : T3)
    (val4 : T4) (val5 : T5) (err : Option GoErr) (messageArgs : List GoAny) :
    Except GoAny (T1 × T2 × T3 × T4 × T5) :=
  Except.map (fun _ => (val1, val2, val3, val4, val5)) (mustE err messageArgs)

/-- `MustE6`. -/
def MustE6 {T1 T2 T3 T4 T5 T6 : Type} (val1 : T1) (val2 : T2) (val3 : T3)
    (val4 : T4) (val5 : T5) (val6 : T6) (err : Option GoErr)
    (messageArgs : List GoAny) : Except GoAny (T1 × T2 × T3 × T4 × T5 × T6) :=
  Except.map (fun _ => (val1, val2, val3, val4, val5, val6)) (mustE err messageArgs)

/-- `Try(callback func() error) (ok bool)`: `ok` starts `true`; a deferred
`recover()` turns any panic raised while running the callback into
`ok = false`; a normally returned non-nil error also gives `ok = false`.
The callback's run is an `Except GoAny (Option GoErr)` value: panic payload
on the left, returned `error` on the right. -/
def Try (callback : Except GoAny (Option GoErr)) : Bool :=
  match callback with
  | Except.error _ => false
  | Except.ok (some _) => false
  | Except.ok none => true

/-- `Try0(callback func())`: wraps the callback to return `nil` and defers
to `Try` (so only a panic can make it `false`). -/
def Try0 (callback : Except GoAny Unit) : Bool :=
  Try (Except.map (fun _ => (none : Option GoErr)) callback)

/-- `TryOr1[A any](callback, fallbackA)`: the closure run under `Try0`
overwrites the fallback slot and sets `ok` only when the callback completed
with a nil error; a panic or a non-nil error leaves both untouched. -/
def TryOr1 {A : Type} (callback : Except GoAny (A × Option GoErr))
    (fallbackA : A) : A × Bool :=
  match callback with
  | Except.ok (a, none) => (a, true)
  | Except.ok (_, some _) => (fallbackA, false)
  | Except.error _ => (fallbackA, false)

/-- `TryOr` is `TryOr1`. -/
def TryOr {A : Type} (callback : Except GoAny (A × Option GoErr))
    (fallbackA : A) : A × Bool :=
  TryOr1 callback fallbackA

/-- `TryOr2`. -/
def TryOr2 {A B : Type} (callback : Except GoAny (A × B × Option GoErr))
    (fallbackA : A) (fallbackB : B) : A × B × Bool :=
  match callback with
  | Except.ok (a, b, none) => (a, b, true)
  | Except.ok (_, _, some _) => (fallbackA, fallbackB, false)
  | Except.error _ => (fallbackA, fallbackB, false)

/-- `TryOr3`. -/
def TryOr3 {A B C : Type} (callback : Except GoAny (A × B × C × Option GoErr))
    (fallbackA : A) (fallbackB : B) (fallbackC : C) : A × B × C × Bool :=
  match callback with
  | Except.ok (a, b, c, none) => (a, b, c, true)
  | Except.ok (_, _, _, some _) => (fallbackA, fallbackB, fallbackC, false)
  | Except.error _ => (fallbackA, fallbackB, fallbackC, false)

/-- `TryOr4`. -/
def TryOr4 {A B C D : Type}
    (callback : Except GoAny (A × B × C × D × Option GoErr))
    (fallbackA : A) (fallbackB : B) (fallbackC : C) (fallbackD : D) :
    A × B × C × D × Bool :=
  match callback with
  | Except.ok (a, b, c, d, none) => (a, b, c, d, true)
  | Except.ok (_, _, _, _, some _) => (fallbackA, fallbackB, fallbackC, fallbackD, false)
  | Except.error _ => (fallbackA, fallbackB, fallbackC, fallbackD, false)

/-- `TryOr5`. -/
def TryOr5 {A B C D E : Type}
    (callback : Except GoAny (A × B × C × D × E × Option GoErr))
    (fallbackA : A) (fallbackB : B) (fallbackC : C) (fallbackD : D)
    (fallbackE : E) : A × B × C × D × E × Bool :=
  match callback with
  | Except.ok (a, b, c, d, e, none) => (a, b, c, d, e, true)
  | Except.ok (_, _, _, _, _, some _) =>
      (fallbackA, fallbackB, fallbackC, fallbackD, fallbackE, false)
  | Except.error _ => (fallbackA, fallbackB, fallbackC, fallbackD, fallbackE, false)

/-- `TryOr6`. -/
def TryOr6 {A B C D E F : Type}
    (callback : Except GoAny (A × B × C × D × E × F × Option GoErr))
    (fallbackA : A) (fallbackB : B) (fallbackC : C) (fallbackD : D)
    (fallbackE : E) (fallbackF : F) : A × B × C × D × E × F × Bool :=
  match callback with
  | Except.ok (a, b, c, d, e, f, none) => (a, b, c, d, e, f, true)
  | Except.ok (_, _, _, _, _, _, some _) =>
      (fallbackA, fallbackB, fallbackC, fallbackD, fallbackE, fallbackF, false)
  | Except.error _ =>
      (fallbackA, fallbackB, fallbackC, fallbackD, fallbackE, fallbackF, false)

/-- `TryWithErrorValue(callback func() error) (errorValue any, ok bool)`:
like `Try`, but the recovered panic payload (or the returned non-nil error)
is also handed back; on success `errorValue` stays `nil`. -/
def TryWithErrorValue (callback : Except GoAny (Option GoErr)) : GoAny × Bool :=
  match callback with
  | Except.error r => (r, false)
  | Except.ok (some e) => (GoAny.goErr e, false)
  | Except.ok none => (GoAny.goNil, true)

/-- The spec's nesting scenario as a callback term: run an inner
`Try` over a callback that returns the failure `er`, then call
`must(false)` (whose panic is the outer computation's outcome). -/
def nestedTryCallback (er : GoErr) : Except GoAny (Option GoErr) :=
  let _innerOk := Try (Except.ok (some er))
  Except.map (fun _ => (none : Option GoErr)) (must (GoAny.goBool false) [])

/-- Equation lemma: `must` on the boolean indicator `false` composes the
message (propagating a composition panic) and panics with it, defaulting to
`"not ok"`. -/
theorem must_goBool_false_eq (args : List GoAny) :
    must (GoAny.goBool false) args =
      match messageFromMsgAndArgs args with
      | Except.error p => Except.error p
      | Except.ok message =>
          Except.error (GoAny.goString (if message = "" then "not ok" else message)) := rfl

/-- Equation lemma: `must` on an error indicator composes the message
(propagating a composition panic) and panics with the prefixed or plain
`Error()` text. -/
theorem must_goErr_eq (e : GoErr) (args : List GoAny) :
    must (GoAny.goErr e) args =
      match messageFromMsgAndArgs args with
      | Except.error p => Except.error p
      | Except.ok message =>
        if message ≠ "" then Except.error (GoAny.goString (message ++ ": " ++ e.Error))
        else Except.error (GoAny.goString e.Error) := rfl

/-- Equation lemma: `mustE` on a non-nil error composes the message
(propagating a composition panic) and panics with the wrapper. -/
theorem mustE_some_eq (e : GoErr) (args : List GoAny) :
    mustE (some e) args =
      match messageFromMsgAndArgs args with
      | Except.error p => Except.error p
      | Except.ok message =>
          Except.error (GoAny.goErr (GoErr.wrapErrPrefixMsg e message)) := rfl

/-- C1: `Try` returns `true` exactly when the callback completes with a nil
failure value and raises no abort; an abort (panic) raised during the
callback — including one raised by a Must-family call on an error
indicator — is caught at the boundary and yields `false`.  `Try` is a total
boolean-valued function of the callback's outcome, so a caught abort never
propagates to its caller. -/
theorem Try_true_iff_nil_and_no_abort :
    (∀ c : Except GoAny (Option GoErr), Try c = true ↔ c = Except.ok none) ∧
    (∀ p : GoAny, Try (Except.error p) = false) ∧
    (∀ (e : GoErr) (args : List GoAny),
      Try (Except.map (fun _ => (none : Option GoErr))
        (must (GoAny.goErr e) args)) = false) := by
  refine ⟨?_, fun p => rfl, ?_⟩
  · intro c
    cases c with
    | error p => simp [Try]
    | ok v =>
      cases v with
      | none => simp [Try]
      | some e => simp [Try]
  · intro e args
    rw [must_goErr_eq]
    cases h : messageFromMsgAndArgs args with
    | error p => rfl
    | ok m =>
      by_cases hm : m = ""
      · simp [hm, Try, Except.map]
      · simp [hm, Try, Except.map]

/-- C1 witness: concrete instances of the `Try` boundary behavior. -/
theorem Try_true_iff_nil_and_no_abort_witness :
    Try (Except.ok none) = true ∧ Try (Except.error (GoAny.goString "boom")) = false :=
  ⟨(Try_true_iff_nil_and_no_abort.1 (Except.ok none)).mpr rfl,
   Try_true_iff_nil_and_no_abort.2.1 (GoAny.goString "boom")⟩

/-- C2: for every arity 0..6 and both success indicators (`nil` and boolean
`true`), the Must-family wrappers return exactly their input values and
never invoke the abort hook (the result is `Except.ok`, never
`Except.error`), regardless of the message arguments supplied. -/
theorem Must_family_success_identity {T1 T2 T3 T4 T5 T6 : Type}
    (v1 : T1) (v2 : T2) (v3 : T3) (v4 : T4) (v5 : T5) (v6 : T6)
    (args : List GoAny) :
    (Must0 GoAny.goNil args = Except.ok () ∧
     Must0 (GoAny.goBool true) args = Except.ok ()) ∧
    (Must v1 GoAny.goNil args = Except.ok v1 ∧
     Must v1 (GoAny.goBool true) args = Except.ok v1) ∧
    (Must1 v1 GoAny.goNil args = Except.ok v1 ∧
     Must1 v1 (GoAny.goBool true) args = Except.ok v1) ∧
    (Must2 v1 v2 GoAny.goNil args = Except.ok (v1, v2) ∧
     Must2 v1 v2 (GoAny.goBool true) args = Except.ok (v1, v2)) ∧
    (Must3 v1 v2 v3 GoAny.goNil args = Except.ok (v1, v2, v3) ∧
     Must3 v1 v2 v3 (GoAny.goBool true) args = Except.ok (v1, v2, v3)) ∧
    (Must4 v1 v2 v3 v4 GoAny.goNil args = Except.ok (v1, v2, v3, v4) ∧
     Must4 v1 v2 v3 v4 (GoAny.goBool true) args = Except.ok (v1, v2, v3, v4)) ∧
    (Must5 v1 v2 v3 v4 v5 GoAny.goNil args = Except.ok (v1, v2, v3, v4, v5) ∧
     Must5 v1 v2 v3 v4 v5 (GoAny.goBool true) args = Except.ok (v1, v2, v3, v4, v5)) ∧
    (Must6 v1 v2 v3 v4 v5 v6 GoAny.goNil args = Except.ok (v1, v2, v3, v4, v5, v6) ∧
     Must6 v1 v2 v3 v4 v5 v6 (GoAny.goBool true) args
       = Except.ok (v1, v2, v3, v4, v5, v6)) :=
  ⟨⟨rfl, rfl⟩, ⟨rfl, rfl⟩, ⟨rfl, rfl⟩, ⟨rfl, rfl⟩, ⟨rfl, rfl⟩, ⟨rfl, rfl⟩,
   ⟨rfl, rfl⟩, ⟨rfl, rfl⟩⟩

/-- C3: on the failure path, when message composition succeeds with `m`:
a boolean-`false` indicator aborts with `m` (or with `"not ok"` when `m` is
empty); an error indicator aborts with `m ++ ": " ++ err.Error()` when `m`
is non-empty and with `err.Error()` alone otherwise; the arity wrappers
(here `Must`) delegate to the same path. -/
theorem must_failure_message_composition (args : List GoAny) (m : String)
    (h : messageFromMsgAndArgs args = Except.ok m) :
    (m = "" → must (GoAny.goBool false) args = Except.error (GoAny.goString "not ok")) ∧
    (m ≠ "" → must (GoAny.goBool false) args = Except.error (GoAny.goString m)) ∧
    (∀ e : GoErr,
      (m = "" →
        must (GoAny.goErr e) args = Except.error (GoAny.goString (GoErr.Error e))) ∧
      (m ≠ "" →
        must (GoAny.goErr e) args
          = Except.error (GoAny.goString (m ++ ": " ++ GoErr.Error e)))) ∧
    (∀ {T : Type} (v : T), m = "" →
      Must v (GoAny.goBool false) args = Except.error (GoAny.goString "not ok")) := by
  refine ⟨?_, ?_, ?_, ?_⟩
  · intro hm; rw [must_goBool_false_eq, h]; simp [hm]
  · intro hm; rw [must_goBool_false_eq, h]; simp [hm]
  · intro e
    constructor
    · intro hm; rw [must_goErr_eq, h]; simp [hm]
    · intro hm; rw [must_goErr_eq, h]; simp [hm]
  · intro T v hm
    show Except.map (fun _ => v) (must (GoAny.goBool false) args) = _
    rw [must_goBool_false_eq, h]
    simp [hm, Except.map]

/-- C3 witness: the spec's own examples, with message argument `"ctx"` and
error text `"boom"`. -/
theorem must_failure_message_composition_witness :
    must (GoAny.goBool false) [GoAny.goString "ctx"]
      = Except.error (GoAny.goString "ctx") ∧
    must (GoAny.goErr (GoErr.errorString "boom")) [GoAny.goString "ctx"]
      = Except.error (GoAny.goString "ctx: boom") := by
  constructor
  · exact (must_failure_message_composition [GoAny.goString "ctx"] "ctx" rfl).2.1
      (by decide)
  · have h := ((must_failure_message_composition [GoAny.goString "ctx"] "ctx" rfl).2.2.1
      (GoErr.errorString "boom")).2 (by decide)
    rw [h]
    rfl

/-- C4: for a non-nil failure `e` and message arguments composing to `m`,
`mustE` aborts with the wrapper `wrapErrPrefixMsg` whose base is `e` and
whose attach is `m` (a structured value, not a flattened string), and
unwrapping that wrapper once yields back `e` exactly; the arity wrappers
(here `MustE`) abort with the same payload. -/
theorem mustE_wrap_roundtrip (e : GoErr) (args : List GoAny) (m : String)
    (h : messageFromMsgAndArgs args = Except.ok m) :
    mustE (some e) args
      = Except.error (GoAny.goErr (GoErr.wrapErrPrefixMsg e m)) ∧
    GoErr.Unwrap (GoErr.wrapErrPrefixMsg e m) = some e ∧
    (∀ {T : Type} (v : T),
      MustE v (some e) args
        = Except.error (GoAny.goErr (GoErr.wrapErrPrefixMsg e m))) := by
  have h1 : mustE (some e) args
      = Except.error (GoAny.goErr (GoErr.wrapErrPrefixMsg e m)) := by
    rw [mustE_some_eq, h]
  refine ⟨h1, rfl, ?_⟩
  intro T v
  show Except.map (fun _ => v) (mustE (some e) args) = _
  rw [h1]
  rfl

/-- C4 witness: wrapping `boom` with attach `"ctx"` and unwrapping once. -/
theorem mustE_wrap_roundtrip_witness :
    mustE (some (GoErr.errorString "boom")) [GoAny.goString "ctx"]
      = Except.error (GoAny.goErr
          (GoErr.wrapErrPrefixMsg (GoErr.errorString "boom") "ctx")) ∧
    GoErr.Unwrap (GoErr.wrapErrPrefixMsg (GoErr.errorString "boom") "ctx")
      = some (GoErr.errorString "boom") :=
  ⟨(mustE_wrap_roundtrip (GoErr.errorString "boom") [GoAny.goString "ctx"] "ctx" rfl).1,
   (mustE_wrap_roundtrip (GoErr.errorString "boom") [GoAny.goString "ctx"] "ctx" rfl).2.1⟩

/-- C5: for every arity 1..6 (and the `TryOr` alias), a callback completing
with a nil failure makes `TryOrN` return the callback's produced values with
`ok = true`; a callback returning a non-nil failure, or one whose abort is
intercepted, makes it return the caller-supplied fallback values unchanged
with `ok = false`. -/
theorem TryOr_family_success_or_fallback {A B C D E F : Type}
    (a : A) (b : B) (c : C) (d : D) (e : E) (f : F)
    (fa : A) (fb : B) (fc : C) (fd : D) (fe : E) (ff : F)
    (er : GoErr) (p : GoAny) :
    (TryOr1 (Except.ok (a, none)) fa = (a, true) ∧
     TryOr1 (Except.ok (a, some er)) fa = (fa, false) ∧
     TryOr1 (Except.error p) fa = (fa, false)) ∧
    (TryOr (Except.ok (a, none)) fa = (a, true) ∧
     TryOr (Except.ok (a, some er)) fa = (fa, false) ∧
     TryOr (Except.error p) fa = (fa, false)) ∧
    (TryOr2 (Except.ok (a, b, none)) fa fb = (a, b, true) ∧
     TryOr2 (Except.ok (a, b, some er)) fa fb = (fa, fb, false) ∧
     TryOr2 (Except.error p) fa fb = (fa, fb, false)) ∧
    (TryOr3 (Except.ok (a, b, c, none)) fa fb fc = (a, b, c, true) ∧
     TryOr3 (Except.ok (a, b, c, some er)) fa fb fc = (fa, fb, fc, false) ∧
     TryOr3 (Except.error p) fa fb fc = (fa, fb, fc, false)) ∧
    (TryOr4 (Except.ok (a, b, c, d, none)) fa fb fc fd = (a, b, c, d, true) ∧
     TryOr4 (Except.ok (a, b, c, d, some er)) fa fb fc fd = (fa, fb, fc, fd, false) ∧
     TryOr4 (Except.error p) fa fb fc fd = (fa, fb, fc, fd, false)) ∧
    (TryOr5 (Except.ok (a, b, c, d, e, none)) fa fb fc fd fe = (a, b, c, d, e, true) ∧
     TryOr5 (Except.ok (a, b, c, d, e, some er)) fa fb fc fd fe
       = (fa, fb, fc, fd, fe, false) ∧
     TryOr5 (Except.error p) fa fb fc fd fe = (fa, fb, fc, fd, fe, false)) ∧
    (TryOr6 (Except.ok (a, b, c, d, e, f, none)) fa fb fc fd fe ff
       = (a, b, c, d, e, f, true) ∧
     TryOr6 (Except.ok (a, b, c, d, e, f, some er)) fa fb fc fd fe ff
       = (fa, fb, fc, fd, fe, ff, false) ∧
     TryOr6 (Except.error p) fa fb fc fd fe ff
       = (fa, fb, fc, fd, fe, ff, false)) :=
  ⟨⟨rfl, rfl, rfl⟩, ⟨rfl, rfl, rfl⟩, ⟨rfl, rfl, rfl⟩, ⟨rfl, rfl, rfl⟩,
   ⟨rfl, rfl, rfl⟩, ⟨rfl, rfl, rfl⟩, ⟨rfl, rfl, rfl⟩⟩

/-- C6: interception boundaries nest: the inner `Try` over a callback that
returns the failure `er` reports `false` locally, and that does not stop
the subsequent `must(false)` from aborting with `"not ok"`; the outer `Try`
around the whole computation catches that abort and also reports `false`. -/
theorem Try_nesting_boundaries (er : GoErr) :
    Try (Except.ok (some er)) = false ∧
    must (GoAny.goBool false) [] = Except.error (GoAny.goString "not ok") ∧
    Try (nestedTryCallback er) = false :=
  ⟨rfl, rfl, rfl⟩

/-- C7: `messageFromMsgAndArgs` maps no arguments to `""`; one string
argument to itself; one non-string argument to its `%+v` rendering; two or
more arguments with a string head to the `Sprintf` of the head over the
tail (so the spec's `"a=%d, b=%s"` with `3` and `"x"` gives
`"a=3, b=x"`); and two or more arguments with a non-string head to a
type-assertion panic rather than a silent stringification. -/
theorem messageFromMsgAndArgs_composition :
    messageFromMsgAndArgs [] = Except.ok "" ∧
    (∀ s : String, messageFromMsgAndArgs [GoAny.goString s] = Except.ok s) ∧
    (∀ x : GoAny, x.isGoString = false →
      messageFromMsgAndArgs [x] = Except.ok (sprintf "%+v" [x])) ∧
    (∀ (s : String) (y : GoAny) (rest : List GoAny),
      messageFromMsgAndArgs (GoAny.goString s :: y :: rest)
        = Except.ok (sprintf s (y :: rest))) ∧
    (∀ (x y : GoAny) (rest : List GoAny), x.isGoString = false →
      messageFromMsgAndArgs (x :: y :: rest)
        = Except.error (GoAny.goTypeAssertionError (goTypeString x))) ∧
    messageFromMsgAndArgs [GoAny.goString "a=%d, b=%s", GoAny.goInt 3, GoAny.goString "x"]
      = Except.ok "a=3, b=x" := by
  refine ⟨rfl, fun s => rfl, ?_, fun s y rest => rfl, ?_, rfl⟩
  · intro x hx
    cases x with
    | goString s => simp [GoAny.isGoString] at hx
    | goNil => rfl
    | goBool b => rfl
    | goInt n => rfl
    | goErr e => rfl
    | goTypeAssertionError t => rfl
    | other t => rfl
  · intro x y rest hx
    cases x with
    | goString s => simp [GoAny.isGoString] at hx
    | goNil => rfl
    | goBool b => rfl
    | goInt n => rfl
    | goErr e => rfl
    | goTypeAssertionError t => rfl
    | other t => rfl

/-- C7 witness: a non-string single argument renders by `%+v`, and a
non-string head with further arguments raises the assertion panic. -/
theorem messageFromMsgAndArgs_composition_witness :
    messageFromMsgAndArgs [GoAny.goInt 7] = Except.ok "7" ∧
    messageFromMsgAndArgs [GoAny.goInt 7, GoAny.goNil]
      = Except.error (GoAny.goTypeAssertionError "int") := by
  constructor
  · have h := messageFromMsgAndArgs_composition.2.2.1 (GoAny.goInt 7) rfl
    rw [h]
    rfl
  · have h := messageFromMsgAndArgs_composition.2.2.2.2.1
      (GoAny.goInt 7) GoAny.goNil [] rfl
    rw [h]
    rfl

/-- C8 counterexample: `must` with the invalid indicator `42` (an `int`)
does abort with the diagnostic naming the offending type, but an enclosing
`Try` boundary catches that abort and returns `false` normally — the
contract-violation abort IS recoverable via `Try`, contrary to the claim
that it is never recoverable. -/
theorem must_contract_violation_caught_by_Try :
    must (GoAny.goInt 42) []
      = Except.error (GoAny.goString
          "must: invalid err type 'int', should either be a bool or an error") ∧
    Try (Except.map (fun _ => (none : Option GoErr)) (must (GoAny.goInt 42) []))
      = false :=
  ⟨rfl, rfl⟩

/-- C8 (amended): a Must-family call whose non-nil indicator is neither a
boolean nor an error aborts with a diagnostic naming the offending
reflected type, and — like every other abort — that panic is caught by an
enclosing `Try` boundary, which returns `false` instead of propagating it. -/
theorem must_invalid_indicator_diagnostic (args : List GoAny) (tn : String) (n : Int) :
    (must (GoAny.other tn) args
       = Except.error (GoAny.goString ("must: invalid err type '" ++ tn
           ++ "', should either be a bool or an error")) ∧
     Try (Except.map (fun _ => (none : Option GoErr)) (must (GoAny.other tn) args))
       = false) ∧
    (must (GoAny.goInt n) args
       = Except.error (GoAny.goString
           "must: invalid err type 'int', should either be a bool or an error") ∧
     Try (Except.map (fun _ => (none : Option GoErr)) (must (GoAny.goInt n) args))
       = false) :=
  ⟨⟨rfl, rfl⟩, ⟨rfl, rfl⟩⟩

/-- C9: the wrapper's display: with an empty attach it is exactly the base's
display; with a non-empty attach it is `attach ++ ": " ++ base.Error()`. -/
theorem wrapErrPrefixMsg_display (base : GoErr) (attach : String) :
    (attach = "" →
      GoErr.Error (GoErr.wrapErrPrefixMsg base attach) = GoErr.Error base) ∧
    (attach ≠ "" →
      GoErr.Error (GoErr.wrapErrPrefixMsg base attach)
        = attach ++ ": " ++ GoErr.Error base) := by
  constructor
  · intro h; subst h; rfl
  · intro h; simp [GoErr.Error, h]

/-- C9 witness: both display shapes on the base error `boom`. -/
theorem wrapErrPrefixMsg_display_witness :
    GoErr.Error (GoErr.wrapErrPrefixMsg (GoErr.errorString "boom") "") = "boom" ∧
    GoErr.Error (GoErr.wrapErrPrefixMsg (GoErr.errorString "boom") "ctx")
      = "ctx: boom" := by
  constructor
  · have h := (wrapErrPrefixMsg_display (GoErr.errorString "boom") "").1 rfl
    rw [h]
    rfl
  · have h := (wrapErrPrefixMsg_display (GoErr.errorString "boom") "ctx").2 (by decide)
    rw [h]
    rfl

/-- C10: the interception boundary catches every panic with a non-nil
payload, whatever its type or origin (not only Must-family aborts), giving
`ok = false`; `TryWithErrorValue` then hands back that exact payload — or,
when the callback instead returns a non-nil failure value, that exact
failure — alongside `ok = false`, and stays `(nil, true)` on success. -/
theorem TryWithErrorValue_payload (p : GoAny) (_hp : p ≠ GoAny.goNil) :
    Try (Except.error p) = false ∧
    TryWithErrorValue (Except.error p) = (p, false) ∧
    (∀ e : GoErr, TryWithErrorValue (Except.ok (some e)) = (GoAny.goErr e, false)) ∧
    TryWithErrorValue (Except.ok none) = (GoAny.goNil, true) :=
  ⟨rfl, rfl, fun _ => rfl, rfl⟩

/-- C10 witness: a plain string panic payload from arbitrary code. -/
theorem TryWithErrorValue_payload_witness :
    Try (Except.error (GoAny.goString "oops")) = false ∧
    TryWithErrorValue (Except.error (GoAny.goString "oops"))
      = (GoAny.goString "oops", false) :=
  ⟨(TryWithErrorValue_payload (GoAny.goString "oops") (by decide)).1,
   (TryWithErrorValue_payload (GoAny.goString "oops") (by decide)).2.1⟩

end Lo
